import Mathlib

/-!
Verification of the token-lifecycle subsystem of the kong_microservices
auth service (`src/auth_service/routes/auth_routes.py` and
`src/auth_service/routes/token_routes.py`).

The Flask route handlers are embedded shallowly: the two process-wide
mutable globals (`users_db`, a dict keyed by email, and `token_blacklist`,
a set of wire token strings) become fields of an explicit `AuthState`
threaded through each handler.  `uuid.uuid4()` freshness is modelled by a
counter in the state: every call to the generator yields the current
counter value and bumps it, so distinct calls yield distinct ids.
Timestamps are naturals (seconds).  A JSON body field that may be absent
or empty (Python falsy) is an `Option`, with `none` for the falsy case.
-/

/-- A record of `users_db` (auth_routes.py, `register`): id, username,
email, password, created_at, is_active. Ids are uuid values, modelled as
naturals drawn from the state's counter. -/
structure User where
  id : Nat
  username : String
  email : String
  password : String
  created_at : Nat
  is_active : Bool
deriving DecidableEq

/-- The JWT claim set built in `login` / `refresh_token`: sub, optional
email and username (present only on access tokens), type, iat, exp, jti,
iss. -/
structure TokenPayload where
  sub : Nat
  email : Option String
  username : Option String
  tokenType : String
  iat : Nat
  exp : Nat
  jti : Nat
  iss : String
deriving DecidableEq

/-- A wire token string, abstracted: either a string that does not parse
as a JWT at all, or one that parses to a payload together with whether its
signature verifies under the configured secret and algorithm.  Tokens
minted by the service always carry a valid signature. -/
inductive Token where
  | malformed (raw : String)
  | wellFormed (payload : TokenPayload) (sigValid : Bool)
deriving DecidableEq

/-- The process-wide shared state of the auth service:
`users_db` (insertion-ordered dict keyed by email), `token_blacklist`
(a set of wire tokens), and the uuid freshness counter. -/
structure AuthState where
  users_db : List (String × User)
  token_blacklist : Finset Token
  uuidCounter : Nat
deriving DecidableEq

/-- Deployment configuration: `JWT_ACCESS_TOKEN_EXPIRES` and
`JWT_REFRESH_TOKEN_EXPIRES` (seconds). Modelled from the spec: the auth
service `config.py` is not under src/; the spec fixes only that both are
configured positive lifetimes with access ≪ refresh, so they are carried
as parameters here. -/
structure Config where
  accessExpires : Nat
  refreshExpires : Nat
deriving DecidableEq

/-- Outcome of `jwt.decode(token, secret, algorithms=[...])` as used by the
handlers: `ok` on success, otherwise the exception raised.  PyJWT (and
spec §4.2) orders the checks: structure, then signature, then expiry —
`Expired` means the signature was valid but now > exp; a bad signature
raises `InvalidTokenError` whatever the expiry. -/
inductive DecodeResult where
  | ok (payload : TokenPayload)
  | malformed
  | signatureInvalid
  | expired
deriving DecidableEq

/-- `jwt.decode` with the configured secret and single configured
algorithm, at current time `now`. -/
def decode (t : Token) (now : Nat) : DecodeResult :=
  match t with
  | .malformed _ => .malformed
  | .wellFormed p sigValid =>
      if sigValid = false then .signatureInvalid
      else if p.exp < now then .expired
      else .ok p

/-- Python truthiness of an optional string field read with `data.get`:
absent (`None`) and the empty string are falsy. -/
def truthyStr : Option String → Bool
  | none => false
  | some s => s ≠ ""

/-- The access-token payload minted in `login` and `refresh_token`:
carries email and username, type "access", exp = iat + configured access
lifetime. -/
def accessPayload (u : User) (cfg : Config) (now jti : Nat) : TokenPayload :=
  { sub := u.id, email := some u.email, username := some u.username,
    tokenType := "access", iat := now, exp := now + cfg.accessExpires,
    jti := jti, iss := "kong-demo-auth" }

/-- The refresh-token payload minted in `login`: no email/username,
type "refresh", exp = iat + configured refresh lifetime. -/
def refreshPayload (u : User) (cfg : Config) (now jti : Nat) : TokenPayload :=
  { sub := u.id, email := none, username := none,
    tokenType := "refresh", iat := now, exp := now + cfg.refreshExpires,
    jti := jti, iss := "kong-demo-auth" }

/-- Request body of `/register`, each field possibly absent. -/
structure RegisterBody where
  username : Option String
  email : Option String
  password : Option String
deriving DecidableEq

/-- Response branches of `register` (auth_routes.py):
400 INVALID_REQUEST, 400 MISSING_FIELDS, 409 USER_EXISTS,
201 success with the new user's id, username, email. -/
inductive RegisterResult where
  | invalidRequest
  | missingFields
  | userExists
  | success (user_id : Nat) (username email : String)
deriving DecidableEq

/-- `register` handler: validates the body, rejects a duplicate email
with 409, otherwise inserts a fresh active user keyed by email. -/
def register (st : AuthState) (body : Option RegisterBody) (now : Nat) :
    RegisterResult × AuthState :=
  match body with
  | none => (.invalidRequest, st)
  | some b =>
    if truthyStr b.username && truthyStr b.email && truthyStr b.password then
      let e := b.email.getD ""
      match st.users_db.lookup e with
      | some _ => (.userExists, st)
      | none =>
        let uid := st.uuidCounter
        let u : User :=
          { id := uid, username := b.username.getD "", email := e,
            password := b.password.getD "", created_at := now, is_active := true }
        (.success uid u.username e,
         { st with users_db := st.users_db ++ [(e, u)],
                   uuidCounter := st.uuidCounter + 1 })
    else (.missingFields, st)

/-- Response branches of `login` (auth_routes.py):
400 INVALID_REQUEST / MISSING_FIELDS, 401 INVALID_CREDENTIALS,
403 ACCOUNT_INACTIVE, 200 with the access/refresh pair and expires_in. -/
inductive LoginResult where
  | invalidRequest
  | missingFields
  | invalidCredentials
  | accountInactive
  | success (access_token refresh_token : Token) (expires_in : Nat)
deriving DecidableEq

/-- `login` handler: `users_db.get(email)`; absent user or password
mismatch give the one INVALID_CREDENTIALS response; an inactive account
gives ACCOUNT_INACTIVE; otherwise two tokens are minted, each with a
fresh jti from `uuid4()`. -/
def login (st : AuthState) (body : Option (Option String × Option String))
    (cfg : Config) (now : Nat) : LoginResult × AuthState :=
  match body with
  | none => (.invalidRequest, st)
  | some (email, password) =>
    if truthyStr email && truthyStr password then
      match st.users_db.lookup (email.getD "") with
      | none => (.invalidCredentials, st)
      | some user =>
        if user.password = password.getD "" then
          if user.is_active then
            let ap := accessPayload user cfg now st.uuidCounter
            let rp := refreshPayload user cfg now (st.uuidCounter + 1)
            (.success (.wellFormed ap true) (.wellFormed rp true) cfg.accessExpires,
             { st with uuidCounter := st.uuidCounter + 2 })
          else (.accountInactive, st)
        else (.invalidCredentials, st)
    else (.missingFields, st)

/-- The `data` object of a 200 `verify` response: user_id, email,
username, issued_at, expires_at read from the decoded payload. -/
structure VerifyData where
  user_id : Nat
  email : Option String
  username : Option String
  issued_at : Nat
  expires_at : Nat
deriving DecidableEq

/-- Response branches of `verify` (auth_routes.py), from the bearer token
on: 401 TOKEN_REVOKED, 401 TOKEN_EXPIRED (ExpiredSignatureError),
401 INVALID_TOKEN (any other InvalidTokenError: malformed or bad
signature), 200 with the decoded claims. -/
inductive VerifyResult where
  | valid (data : VerifyData)
  | revoked
  | expired
  | invalidToken
deriving DecidableEq

/-- `verify` handler, given the token extracted from the Authorization
header: blacklist membership first, then `jwt.decode`. -/
def verify (st : AuthState) (t : Token) (now : Nat) : VerifyResult :=
  if t ∈ st.token_blacklist then .revoked
  else
    match decode t now with
    | .ok p => .valid ⟨p.sub, p.email, p.username, p.iat, p.exp⟩
    | .expired => .expired
    | .malformed => .invalidToken
    | .signatureInvalid => .invalidToken

/-- `logout` handler, given the bearer token: unconditionally adds it to
the blacklist. -/
def logout (st : AuthState) (t : Token) : AuthState :=
  { st with token_blacklist := insert t st.token_blacklist }

/-- Response branches of `refresh_token` (token_routes.py):
400 INVALID_REQUEST / MISSING_TOKEN, 401 TOKEN_REVOKED / TOKEN_EXPIRED /
INVALID_TOKEN / INVALID_TOKEN_TYPE, 404 USER_NOT_FOUND, 200 with a new
access token. -/
inductive RefreshResult where
  | invalidRequest
  | missingToken
  | revoked
  | expired
  | invalidToken
  | invalidTokenType
  | userNotFound
  | success (access_token : Token) (expires_in : Nat)
deriving DecidableEq

/-- The user lookup loop of `refresh_token`: iterate `users_db.items()`
in insertion order and return the first record whose id matches. -/
def findById (users : List (String × User)) (uid : Nat) : Option User :=
  match users with
  | [] => none
  | (_, u) :: rest => if u.id = uid then some u else findById rest uid

/-- `refresh_token` handler.  The body is `Option (Option Token)`:
`none` = no JSON body, `some none` = refresh_token field absent/falsy.
Checks: blacklist, decode, token type = "refresh", subject resolves in
`users_db`; then mints a new access token with a fresh jti.  Note the
handler does not consult `is_active`. -/
def refresh_token (st : AuthState) (body : Option (Option Token))
    (cfg : Config) (now : Nat) : RefreshResult × AuthState :=
  match body with
  | none => (.invalidRequest, st)
  | some none => (.missingToken, st)
  | some (some rt) =>
    if rt ∈ st.token_blacklist then (.revoked, st)
    else
      match decode rt now with
      | .expired => (.expired, st)
      | .malformed => (.invalidToken, st)
      | .signatureInvalid => (.invalidToken, st)
      | .ok p =>
        if p.tokenType ≠ "refresh" then (.invalidTokenType, st)
        else
          match findById st.users_db p.sub with
          | none => (.userNotFound, st)
          | some user =>
            let ap := accessPayload user cfg now st.uuidCounter
            (.success (.wellFormed ap true) cfg.accessExpires,
             { st with uuidCounter := st.uuidCounter + 1 })

/-- The JSON answer of `introspect_token`: HTTP status, the `active`
flag, and the echoed payload fields when active. -/
structure IntrospectResult where
  status : Nat
  active : Bool
  payload : Option TokenPayload
deriving DecidableEq

/-- `introspect_token` handler (token_routes.py): 400 only for a missing
body or missing token field; a blacklisted token or any decode failure
answers 200 with active false; a valid token answers 200 with active true
and its claims. -/
def introspect_token (st : AuthState) (body : Option (Option Token))
    (now : Nat) : IntrospectResult × AuthState :=
  match body with
  | none => (⟨400, false, none⟩, st)
  | some none => (⟨400, false, none⟩, st)
  | some (some t) =>
    if t ∈ st.token_blacklist then (⟨200, false, none⟩, st)
    else
      match decode t now with
      | .ok p => (⟨200, true, some p⟩, st)
      | .expired => (⟨200, false, none⟩, st)
      | .malformed => (⟨200, false, none⟩, st)
      | .signatureInvalid => (⟨200, false, none⟩, st)

/-- Response branches of `revoke_token` (token_routes.py):
400 INVALID_REQUEST / MISSING_TOKEN, 200 success. -/
inductive RevokeResult where
  | invalidRequest
  | missingToken
  | success
deriving DecidableEq

/-- `revoke_token` handler: with a token present, unconditionally
`token_blacklist.add(token)` — no validity check of any kind. -/
def revoke_token (st : AuthState) (body : Option (Option Token)) :
    RevokeResult × AuthState :=
  match body with
  | none => (.invalidRequest, st)
  | some none => (.missingToken, st)
  | some (some t) =>
    (.success, { st with token_blacklist := insert t st.token_blacklist })

/-! ## Helper lemmas and concrete fixtures -/

/-- Looking up a key freshly appended to an association list with no
earlier binding for it finds the appended value. -/
theorem lookup_append_of_none {l : List (String × User)} {e : String} {u : User}
    (h : List.lookup e l = none) : List.lookup e (l ++ [(e, u)]) = some u := by
  induction l with
  | nil => simp [List.lookup]
  | cons hd tl ih =>
    rcases hd with ⟨k, v⟩
    cases hbeq : (e == k) with
    | true => simp [List.lookup, hbeq] at h
    | false =>
      simp only [List.cons_append, List.lookup, hbeq] at h ⊢
      exact ih h

def sampleUser : User :=
  { id := 0, username := "alice", email := "a@x.com", password := "p",
    created_at := 0, is_active := true }

def sampleState : AuthState :=
  { users_db := [("a@x.com", sampleUser)], token_blacklist := ∅, uuidCounter := 1 }

def sampleCfg : Config := { accessExpires := 3600, refreshExpires := 604800 }

def sampleAccessTok : Token :=
  .wellFormed (accessPayload sampleUser sampleCfg 0 1) true

/-! ## Claims -/

/-- C3: `verify` checks revocation membership before decoding, each check
short-circuiting: after `revoke(t)`, `verify(t)` yields Revoked whatever
the token's signature, structure or expiry; only a non-revoked token
proceeds to decode, and each decode failure propagates (Expired as
TOKEN_EXPIRED, Malformed and SignatureInvalid as the INVALID_TOKEN
rejection), never as a valid result. -/
theorem C3_verify_revocation_first (st : AuthState) (t : Token) (now : Nat) :
    verify (revoke_token st (some (some t))).2 t now = .revoked ∧
    (t ∉ st.token_blacklist →
      (∀ p, decode t now = .ok p →
        verify st t now = .valid ⟨p.sub, p.email, p.username, p.iat, p.exp⟩) ∧
      (decode t now = .expired → verify st t now = .expired) ∧
      (decode t now = .malformed → verify st t now = .invalidToken) ∧
      (decode t now = .signatureInvalid → verify st t now = .invalidToken) ∧
      (decode t now = .malformed ∨ decode t now = .signatureInvalid ∨
          decode t now = .expired →
        ∀ d, verify st t now ≠ .valid d)) := by
  constructor
  · simp [revoke_token, verify]
  · intro hbl
    refine ⟨?_, ?_, ?_, ?_, ?_⟩
    · intro p hp; simp [verify, hbl, hp]
    · intro hp; simp [verify, hbl, hp]
    · intro hp; simp [verify, hbl, hp]
    · intro hp; simp [verify, hbl, hp]
    · rintro (hp | hp | hp) d <;> simp [verify, hbl, hp]

/-- Witness for C3 at a concrete state and token. -/
theorem C3_witness :
    sampleAccessTok ∉ sampleState.token_blacklist ∧
    verify (revoke_token sampleState (some (some sampleAccessTok))).2
      sampleAccessTok 5 = .revoked ∧
    verify sampleState sampleAccessTok 5 =
      .valid ⟨sampleUser.id, some sampleUser.email, some sampleUser.username,
              0, 3600⟩ := by
  have h := C3_verify_revocation_first sampleState sampleAccessTok 5
  exact ⟨by decide, h.1,
    (h.2 (by decide)).1 (accessPayload sampleUser sampleCfg 0 1) (by decide)⟩

/-- C4: a well-formed, unexpired, unrevoked token whose decoded type is
not "refresh" is rejected by `refresh_token` with INVALID_TOKEN_TYPE and
the state is unchanged — no new access token is minted. -/
theorem C4_refresh_rejects_wrong_type (st : AuthState) (p : TokenPayload)
    (cfg : Config) (now : Nat)
    (hbl : (Token.wellFormed p true) ∉ st.token_blacklist)
    (hexp : ¬ p.exp < now) (hty : p.tokenType ≠ "refresh") :
    refresh_token st (some (some (.wellFormed p true))) cfg now =
      (.invalidTokenType, st) := by
  have hdec : decode (.wellFormed p true) now = .ok p := by
    simp [decode, hexp]
  simp [refresh_token, hbl, hdec, hty]

/-- Witness for C4: an access token is rejected by refresh. -/
theorem C4_witness :
    refresh_token sampleState (some (some sampleAccessTok)) sampleCfg 5 =
      (.invalidTokenType, sampleState) :=
  C4_refresh_rejects_wrong_type sampleState (accessPayload sampleUser sampleCfg 0 1)
    sampleCfg 5 (by decide) (by decide) (by decide)

/-- C5: `revoke_token` with a token present unconditionally inserts it
into the blacklist (no validity requirement — the statement holds for any
token, malformed, badly signed or expired alike) and answers success;
revoking twice yields the same state as once; and no operation of the
service ever removes a blacklist entry: every handler's resulting
blacklist contains the one it started from. -/
theorem C5_revoke_unconditional_idempotent_monotone (st : AuthState) (t : Token) :
    (revoke_token st (some (some t))).2.token_blacklist =
      insert t st.token_blacklist ∧
    (revoke_token st (some (some t))).1 = .success ∧
    (revoke_token (revoke_token st (some (some t))).2 (some (some t))).2 =
      (revoke_token st (some (some t))).2 ∧
    (∀ body now, st.token_blacklist ⊆ (register st body now).2.token_blacklist) ∧
    (∀ body cfg now, st.token_blacklist ⊆ (login st body cfg now).2.token_blacklist) ∧
    (∀ body cfg now,
      st.token_blacklist ⊆ (refresh_token st body cfg now).2.token_blacklist) ∧
    (∀ body now,
      st.token_blacklist ⊆ (introspect_token st body now).2.token_blacklist) ∧
    (∀ body, st.token_blacklist ⊆ (revoke_token st body).2.token_blacklist) ∧
    (∀ t0, st.token_blacklist ⊆ (logout st t0).token_blacklist) := by
  refine ⟨rfl, rfl, ?_, ?_, ?_, ?_, ?_, ?_, ?_⟩
  · simp [revoke_token, Finset.insert_idem]
  · intro body now
    rcases body with _ | b
    · exact Finset.Subset.refl _
    · simp only [register]
      repeat' split
      all_goals exact Finset.Subset.refl _
  · intro body cfg now
    rcases body with _ | ⟨email, password⟩
    · exact Finset.Subset.refl _
    · simp only [login]
      repeat' split
      all_goals exact Finset.Subset.refl _
  · intro body cfg now
    rcases body with _ | (_ | rt)
    · exact Finset.Subset.refl _
    · exact Finset.Subset.refl _
    · simp only [refresh_token]
      repeat' split
      all_goals exact Finset.Subset.refl _
  · intro body now
    rcases body with _ | (_ | t0)
    · exact Finset.Subset.refl _
    · exact Finset.Subset.refl _
    · simp only [introspect_token]
      repeat' split
      all_goals exact Finset.Subset.refl _
  · intro body
    rcases body with _ | (_ | t0)
    · exact Finset.Subset.refl _
    · exact Finset.Subset.refl _
    · exact Finset.subset_insert _ _
  · intro t0
    exact Finset.subset_insert _ _

/-- Witness for C5 at a concrete state and token. -/
theorem C5_witness :
    (revoke_token sampleState (some (some sampleAccessTok))).2.token_blacklist =
      insert sampleAccessTok sampleState.token_blacklist ∧
    (revoke_token (revoke_token sampleState (some (some sampleAccessTok))).2
        (some (some sampleAccessTok))).2 =
      (revoke_token sampleState (some (some sampleAccessTok))).2 := by
  have h := C5_revoke_unconditional_idempotent_monotone sampleState sampleAccessTok
  exact ⟨h.1, h.2.2.1⟩

/-- C6: `login` answers the one INVALID_CREDENTIALS response both for an
email absent from the store and for a password mismatch (identical
response value, leaking nothing); ACCOUNT_INACTIVE exactly when the
credential pair matches but the active flag is false; and a deactivated
user with a wrong password still receives INVALID_CREDENTIALS, never
ACCOUNT_INACTIVE. -/
theorem C6_login_error_taxonomy (st : AuthState) (e pw : String)
    (cfg : Config) (now : Nat) (he : e ≠ "") (hpw : pw ≠ "") :
    (List.lookup e st.users_db = none →
      login st (some (some e, some pw)) cfg now = (.invalidCredentials, st)) ∧
    (∀ u, List.lookup e st.users_db = some u → u.password ≠ pw →
      login st (some (some e, some pw)) cfg now = (.invalidCredentials, st)) ∧
    (∀ u, List.lookup e st.users_db = some u → u.password = pw →
      u.is_active = false →
      login st (some (some e, some pw)) cfg now = (.accountInactive, st)) ∧
    (∀ u, List.lookup e st.users_db = some u → u.password ≠ pw →
      u.is_active = false →
      (login st (some (some e, some pw)) cfg now).1 = .invalidCredentials ∧
      (login st (some (some e, some pw)) cfg now).1 ≠ .accountInactive) := by
  refine ⟨?_, ?_, ?_, ?_⟩
  · intro h; simp [login, truthyStr, he, hpw, h]
  · intro u hu hmis; simp [login, truthyStr, he, hpw, hu, hmis]
  · intro u hu hmatch hinact
    simp [login, truthyStr, he, hpw, hu, hmatch, hinact]
  · intro u hu hmis hinact
    simp [login, truthyStr, he, hpw, hu, hmis]

/-- A deactivated user and a state holding only that user. -/
def inactiveUser : User :=
  { id := 7, username := "bob", email := "b@x.com", password := "q",
    created_at := 0, is_active := false }

def inactiveState : AuthState :=
  { users_db := [("b@x.com", inactiveUser)], token_blacklist := ∅,
    uuidCounter := 8 }

/-- Witness for C6: wrong password for a deactivated user gives
INVALID_CREDENTIALS; the right password gives ACCOUNT_INACTIVE. -/
theorem C6_witness :
    login inactiveState (some (some "b@x.com", some "wrong")) sampleCfg 5 =
      (.invalidCredentials, inactiveState) ∧
    login inactiveState (some (some "b@x.com", some "q")) sampleCfg 5 =
      (.accountInactive, inactiveState) := by
  constructor
  · exact (C6_login_error_taxonomy inactiveState "b@x.com" "wrong" sampleCfg 5
      (by decide) (by decide)).2.1 inactiveUser (by decide) (by decide)
  · exact (C6_login_error_taxonomy inactiveState "b@x.com" "q" sampleCfg 5
      (by decide) (by decide)).2.2.1 inactiveUser (by decide) (by decide) (by decide)

/-- C7: on a successful login the two minted payloads share the stored
user's id as subject but have distinct fresh jti values; each has
expires_at strictly above issued_at (issued_at plus the configured
positive lifetime, access below refresh); the access claims carry email
and username while the refresh claims carry neither. -/
theorem C7_login_mints_token_pair (st : AuthState) (e pw : String) (u : User)
    (cfg : Config) (now : Nat) (he : e ≠ "") (hpw : pw ≠ "")
    (hu : List.lookup e st.users_db = some u) (hpass : u.password = pw)
    (hact : u.is_active = true) (hpos : 0 < cfg.accessExpires)
    (hlt : cfg.accessExpires < cfg.refreshExpires) :
    login st (some (some e, some pw)) cfg now =
      (.success (.wellFormed (accessPayload u cfg now st.uuidCounter) true)
        (.wellFormed (refreshPayload u cfg now (st.uuidCounter + 1)) true)
        cfg.accessExpires,
       { st with uuidCounter := st.uuidCounter + 2 }) ∧
    (accessPayload u cfg now st.uuidCounter).sub = u.id ∧
    (refreshPayload u cfg now (st.uuidCounter + 1)).sub = u.id ∧
    (accessPayload u cfg now st.uuidCounter).jti ≠
      (refreshPayload u cfg now (st.uuidCounter + 1)).jti ∧
    (accessPayload u cfg now st.uuidCounter).iat <
      (accessPayload u cfg now st.uuidCounter).exp ∧
    (refreshPayload u cfg now (st.uuidCounter + 1)).iat <
      (refreshPayload u cfg now (st.uuidCounter + 1)).exp ∧
    (accessPayload u cfg now st.uuidCounter).exp <
      (refreshPayload u cfg now (st.uuidCounter + 1)).exp ∧
    (accessPayload u cfg now st.uuidCounter).email = some u.email ∧
    (accessPayload u cfg now st.uuidCounter).username = some u.username ∧
    (refreshPayload u cfg now (st.uuidCounter + 1)).email = none ∧
    (refreshPayload u cfg now (st.uuidCounter + 1)).username = none := by
  refine ⟨?_, rfl, rfl, ?_, ?_, ?_, ?_, rfl, rfl, rfl, rfl⟩
  · simp [login, truthyStr, he, hpw, hu, hpass, hact]
  · simp [accessPayload, refreshPayload]
  · simp [accessPayload]; omega
  · simp [refreshPayload]; omega
  · simp [accessPayload, refreshPayload]; omega

/-- Witness for C7 at a concrete state, user and configuration. -/
theorem C7_witness :
    login sampleState (some (some "a@x.com", some "p")) sampleCfg 10 =
      (.success (.wellFormed (accessPayload sampleUser sampleCfg 10 1) true)
        (.wellFormed (refreshPayload sampleUser sampleCfg 10 2) true) 3600,
       { sampleState with uuidCounter := 3 }) ∧
    (accessPayload sampleUser sampleCfg 10 1).jti ≠
      (refreshPayload sampleUser sampleCfg 10 2).jti ∧
    (accessPayload sampleUser sampleCfg 10 1).exp <
      (refreshPayload sampleUser sampleCfg 10 2).exp := by
  have h := C7_login_mints_token_pair sampleState "a@x.com" "p" sampleUser
    sampleCfg 10 (by decide) (by decide) (by decide) (by decide) (by decide)
    (by decide) (by decide)
  exact ⟨h.1, h.2.2.2.1, h.2.2.2.2.2.2.1⟩

/-- C8: `introspect_token` never raises: with a token present the status
is always 200 — a revoked token or any decode failure collapses to
active false with no claims, a valid token answers active true with its
claims — and only a missing body or missing token field answers 400. -/
theorem C8_introspect_fail_soft (st : AuthState) (t : Token) (now : Nat) :
    introspect_token st none now = (⟨400, false, none⟩, st) ∧
    introspect_token st (some none) now = (⟨400, false, none⟩, st) ∧
    (t ∈ st.token_blacklist →
      introspect_token st (some (some t)) now = (⟨200, false, none⟩, st)) ∧
    (t ∉ st.token_blacklist → ∀ p, decode t now = .ok p →
      introspect_token st (some (some t)) now = (⟨200, true, some p⟩, st)) ∧
    (t ∉ st.token_blacklist →
      (decode t now = .expired ∨ decode t now = .malformed ∨
        decode t now = .signatureInvalid) →
      introspect_token st (some (some t)) now = (⟨200, false, none⟩, st)) ∧
    (introspect_token st (some (some t)) now).1.status = 200 := by
  refine ⟨rfl, rfl, ?_, ?_, ?_, ?_⟩
  · intro h; simp [introspect_token, h]
  · intro h p hp; simp [introspect_token, h, hp]
  · rintro h (hp | hp | hp) <;> simp [introspect_token, h, hp]
  · by_cases h : t ∈ st.token_blacklist
    · simp [introspect_token, h]
    · cases hp : decode t now <;> simp [introspect_token, h, hp]

/-- Witness for C8: a revoked token and an expired token both introspect
to 200 / active false; a live token introspects to active true. -/
theorem C8_witness :
    introspect_token (logout sampleState sampleAccessTok)
      (some (some sampleAccessTok)) 5 =
      (⟨200, false, none⟩, logout sampleState sampleAccessTok) ∧
    introspect_token sampleState (some (some sampleAccessTok)) 9999 =
      (⟨200, false, none⟩, sampleState) ∧
    introspect_token sampleState (some (some sampleAccessTok)) 5 =
      (⟨200, true, some (accessPayload sampleUser sampleCfg 0 1)⟩, sampleState) := by
  refine ⟨?_, ?_, ?_⟩
  · exact (C8_introspect_fail_soft (logout sampleState sampleAccessTok)
      sampleAccessTok 5).2.2.1 (by decide)
  · exact (C8_introspect_fail_soft sampleState sampleAccessTok 9999).2.2.2.2.1
      (by decide) (Or.inl (by decide))
  · exact (C8_introspect_fail_soft sampleState sampleAccessTok 5).2.2.2.1
      (by decide) (accessPayload sampleUser sampleCfg 0 1) (by decide)

/-- C9: `register` with an already-present email answers USER_EXISTS and
leaves the store untouched; with a fresh email and all three fields
present it appends exactly one active record under that email, carrying
the fresh id drawn from the uuid counter — an id distinct from every
stored user's id whenever all stored ids are below the counter, which
every run of the service maintains. -/
theorem C9_register_conflict_or_insert (st : AuthState) (un e pw : String)
    (now : Nat) (hun : un ≠ "") (he : e ≠ "") (hpw : pw ≠ "")
    (hfresh : ∀ k u, (k, u) ∈ st.users_db → u.id < st.uuidCounter) :
    (∀ u0, List.lookup e st.users_db = some u0 →
      register st (some ⟨some un, some e, some pw⟩) now = (.userExists, st)) ∧
    (List.lookup e st.users_db = none →
      register st (some ⟨some un, some e, some pw⟩) now =
        (.success st.uuidCounter un e,
         { st with
            users_db := st.users_db ++
              [(e, ⟨st.uuidCounter, un, e, pw, now, true⟩)],
            uuidCounter := st.uuidCounter + 1 }) ∧
      List.lookup e (st.users_db ++
          [(e, (⟨st.uuidCounter, un, e, pw, now, true⟩ : User))]) =
        some ⟨st.uuidCounter, un, e, pw, now, true⟩ ∧
      (∀ k u, (k, u) ∈ st.users_db → u.id ≠ st.uuidCounter)) := by
  constructor
  · intro u0 hu0; simp [register, truthyStr, hun, he, hpw, hu0]
  · intro hnone
    refine ⟨?_, lookup_append_of_none hnone, ?_⟩
    · simp [register, truthyStr, hun, he, hpw, hnone]
    · intro k u hmem
      exact Nat.ne_of_lt (hfresh k u hmem)

/-- Witness for C9: registering a duplicate email conflicts; a fresh
email inserts the one new active record. -/
theorem C9_witness :
    register sampleState (some ⟨some "alice2", some "a@x.com", some "p2"⟩) 5 =
      (.userExists, sampleState) ∧
    register sampleState (some ⟨some "carol", some "c@x.com", some "r"⟩) 5 =
      (.success 1 "carol" "c@x.com",
       { sampleState with
          users_db := sampleState.users_db ++
            [("c@x.com", ⟨1, "carol", "c@x.com", "r", 5, true⟩)],
          uuidCounter := 2 }) := by
  have hf : ∀ k u, (k, u) ∈ sampleState.users_db → u.id < sampleState.uuidCounter := by
    intro k u hmem
    simp [sampleState] at hmem
    rw [hmem.2]
    decide
  constructor
  · exact (C9_register_conflict_or_insert sampleState "alice2" "a@x.com" "p2" 5
      (by decide) (by decide) (by decide) hf).1 sampleUser (by decide)
  · exact ((C9_register_conflict_or_insert sampleState "carol" "c@x.com" "r" 5
      (by decide) (by decide) (by decide) hf).2 (by decide)).1

/-- C10: `verify` performs no token_type check: any well-formed,
unexpired, unrevoked token is accepted whatever its type, so a minted
refresh token — whose claims carry a "refresh" type and no
email/username — verifies as valid with null email and username. -/
theorem C10_verify_accepts_refresh_type (st : AuthState) (u : User)
    (cfg : Config) (t0 jti now : Nat)
    (hbl : (Token.wellFormed (refreshPayload u cfg t0 jti) true) ∉
      st.token_blacklist)
    (hexp : ¬ (refreshPayload u cfg t0 jti).exp < now) :
    (refreshPayload u cfg t0 jti).tokenType = "refresh" ∧
    verify st (.wellFormed (refreshPayload u cfg t0 jti) true) now =
      .valid ⟨u.id, none, none, t0, t0 + cfg.refreshExpires⟩ ∧
    (∀ p : TokenPayload, (Token.wellFormed p true) ∉ st.token_blacklist →
      ¬ p.exp < now →
      verify st (.wellFormed p true) now =
        .valid ⟨p.sub, p.email, p.username, p.iat, p.exp⟩) := by
  have hgen : ∀ p : TokenPayload, (Token.wellFormed p true) ∉ st.token_blacklist →
      ¬ p.exp < now →
      verify st (.wellFormed p true) now =
        .valid ⟨p.sub, p.email, p.username, p.iat, p.exp⟩ := by
    intro p hp hpe
    simp [verify, decode, hp, hpe]
  exact ⟨rfl, hgen _ hbl hexp, hgen⟩

/-- Witness for C10: the refresh token minted for the sample user
verifies as valid with null email and username. -/
theorem C10_witness :
    verify sampleState
      (.wellFormed (refreshPayload sampleUser sampleCfg 0 2) true) 5 =
      .valid ⟨sampleUser.id, none, none, 0, 604800⟩ :=
  (C10_verify_accepts_refresh_type sampleState sampleUser sampleCfg 0 2 5
    (by decide) (by decide)).2.1

/-- C1 as stated is refuted by the code: `refresh_token` re-resolves the
subject but never consults the active flag, so a refresh token of a
deactivated (but present) user is not rejected — a new access token is
minted for it.  Concretely: `inactiveState` holds only the deactivated
`inactiveUser`, yet refreshing their valid refresh token succeeds. -/
theorem C1_counterexample :
    inactiveUser.is_active = false ∧
    refresh_token inactiveState
      (some (some (.wellFormed (refreshPayload inactiveUser sampleCfg 0 2) true)))
      sampleCfg 5 =
      (.success (.wellFormed (accessPayload inactiveUser sampleCfg 5 8) true) 3600,
       { inactiveState with uuidCounter := 9 }) := by
  constructor
  · decide
  · decide

/-- C1 amended: for every refresh call whose token decodes successfully
with token_type "refresh", the subject is re-resolved against the store,
and when it no longer resolves the call fails USER_NOT_FOUND with the
state unchanged — no new access token is minted.  (Deactivation is not
re-checked: only absence is.) -/
theorem C1_refresh_rechecks_subject (st : AuthState) (rt : Token)
    (p : TokenPayload) (cfg : Config) (now : Nat)
    (hbl : rt ∉ st.token_blacklist) (hdec : decode rt now = .ok p)
    (hty : p.tokenType = "refresh")
    (hfind : findById st.users_db p.sub = none) :
    refresh_token st (some (some rt)) cfg now = (.userNotFound, st) := by
  simp [refresh_token, hbl, hdec, hty, hfind]

/-- Witness for C1 amended: a refresh token whose subject is in no user
record fails USER_NOT_FOUND. -/
theorem C1_witness :
    refresh_token sampleState
      (some (some (.wellFormed (refreshPayload inactiveUser sampleCfg 0 2) true)))
      sampleCfg 5 = (.userNotFound, sampleState) :=
  C1_refresh_rechecks_subject sampleState
    (.wellFormed (refreshPayload inactiveUser sampleCfg 0 2) true)
    (refreshPayload inactiveUser sampleCfg 0 2) sampleCfg 5
    (by decide) (by decide) (by decide) (by decide)

/-- C2 as stated is refuted by the code: decode checks the signature
before expiry (PyJWT raises InvalidTokenError, not
ExpiredSignatureError, for a badly signed expired token), so an expired
token with an invalid signature verifies to INVALID_TOKEN, not
TOKEN_EXPIRED. -/
theorem C2_counterexample :
    (accessPayload sampleUser sampleCfg 0 1).exp < 99999 ∧
    verify sampleState
      (.wellFormed (accessPayload sampleUser sampleCfg 0 1) false) 99999 ≠
      .expired ∧
    verify sampleState
      (.wellFormed (accessPayload sampleUser sampleCfg 0 1) false) 99999 =
      .invalidToken := by
  refine ⟨by decide, by decide, by decide⟩

/-- C2 amended: `verify` on a token past its expires_at never yields a
valid result; when the token is moreover unrevoked and its signature is
correct it yields TOKEN_EXPIRED, while a bad signature yields the
INVALID_TOKEN rejection instead. -/
theorem C2_expired_never_valid (st : AuthState) (p : TokenPayload) (b : Bool)
    (now : Nat) (hexp : p.exp < now) :
    (∀ d, verify st (.wellFormed p b) now ≠ .valid d) ∧
    ((Token.wellFormed p b) ∉ st.token_blacklist → b = true →
      verify st (.wellFormed p b) now = .expired) ∧
    ((Token.wellFormed p b) ∉ st.token_blacklist → b = false →
      verify st (.wellFormed p b) now = .invalidToken) := by
  refine ⟨?_, ?_, ?_⟩
  · intro d
    by_cases hbl : (Token.wellFormed p b) ∈ st.token_blacklist
    · simp [verify, hbl]
    · cases b <;> simp [verify, decode, hbl, hexp]
  · intro hbl hb; subst hb; simp [verify, decode, hbl, hexp]
  · intro hbl hb; subst hb; simp [verify, decode, hbl]

/-- Witness for C2 amended: a correctly signed expired token yields
TOKEN_EXPIRED and is not valid. -/
theorem C2_witness :
    verify sampleState sampleAccessTok 99999 = .expired ∧
    ∀ d, verify sampleState sampleAccessTok 99999 ≠ .valid d := by
  have h := C2_expired_never_valid sampleState
    (accessPayload sampleUser sampleCfg 0 1) true 99999 (by decide)
  exact ⟨h.2.1 (by decide) rfl, h.1⟩
